import Mathlib

/-!
Shallow embedding of the sshmanager assignment/health-check engine:
the SSH and Port entities of `models/models.py` and the helpers of
`utils.py` (`parse_ssh_file`, `get_proxy_ip`, `get_first_success`).

Modelling conventions:
* `datetime` values are `Nat` instants; nullable columns are `Option`.
* Pony entities are plain structures; an entity is identified by its
  surrogate `id` (a `Nat`), so the many-to-many `used_ssh_list` set is a
  `List Nat` of credential ids (Pony set membership is by primary key).
* The `before_update` hook runs when a transaction commits.  Every
  `@auto_renew_objects` method runs in its own transaction, so each
  operation is modelled as its field writes followed by one application
  of the hook, which receives the commit instant `now` and the machine's
  local IPv4 address `localIp` (`utils.get_ipv4_address`) as parameters.
* Python exceptions are made explicit: a call that can raise returns
  `Except PyExc _`.  Note that on the Python version this code requires
  (>= 3.8, forced by the walrus operator in `SSH.get_ssh_for_port`),
  `asyncio.CancelledError` derives from `BaseException`, so an
  `except Exception` clause does not catch it.
-/

/-- Python exception values that the embedded code can observe. -/
inductive PyExc where
  | cancelledError
  | timeoutError
  | typeError
  | other (msg : String)
deriving DecidableEq, Repr

/-- `models.SSH`: one credential row.  The base-class `Model` columns that
no claim touches (`is_checking`, timestamps) live on `Port` below where
they matter; for credentials only the selection-relevant columns are
kept, plus the surrogate `id` by which Pony compares entities. -/
structure SSH where
  id : Nat
  ip : String
  username : String
  password : String
  is_live : Bool
deriving DecidableEq, Repr

/-- `models.Port`: one port row, including the inherited `Model` columns
that its hooks and `reset_status` touch. -/
structure Port where
  port_number : Nat
  auto_connect : Bool
  ssh : Option Nat
  is_connected : Bool
  external_ip : String
  time_connected : Option Nat
  used_ssh_list : List Nat
  proxy_address : String
  is_checking : Bool
  last_checked : Option Nat
  last_modified : Nat
deriving DecidableEq, Repr

/-- `Port.before_update` (which first calls `Model.before_update`).
The Python method's sequential writes are independent of one another
(each reads only fields the earlier lines did not write), so they are
one simultaneous record update:
* timestamps (`Model.before_update`);
* `time_connected = time_connected or datetime.now()` when connected,
  `None` otherwise;
* when connected, fold the assigned credential into `used_ssh_list`
  unless already present;
* recompute `proxy_address` from the local IP and the port number. -/
def Port.before_update (p : Port) (now : Nat) (localIp : String) : Port :=
  { p with
    last_modified := now,
    last_checked := if p.is_checking then some now else p.last_checked,
    time_connected :=
      if p.is_connected then some (p.time_connected.getD now) else none,
    used_ssh_list :=
      if p.is_connected then
        match p.ssh with
        | some c =>
            if c ∈ p.used_ssh_list then p.used_ssh_list
            else p.used_ssh_list ++ [c]
        | none => p.used_ssh_list
      else p.used_ssh_list,
    proxy_address := "socks5://" ++ localIp ++ ":" ++ toString p.port_number }

/-- `Port.need_ssh`: true when no credential is assigned. -/
def Port.need_ssh (p : Port) : Bool :=
  p.ssh.isNone

/-- `Port.need_reset`: `self.ssh is not None and self.time_connected <
time_expired`.  Python's `and` short-circuits, so an unassigned port
yields `False`; but when a credential is assigned and `time_connected`
is `None`, the comparison `None < datetime` raises a `TypeError`. -/
def Port.need_reset (p : Port) (time_expired : Nat) : Except PyExc Bool :=
  match p.ssh with
  | none => .ok false
  | some _ =>
      match p.time_connected with
      | none => .error PyExc.typeError
      | some t => .ok (decide (t < time_expired))

/-- `Port.assign_ssh`: set the assignment, clear `is_connected`; the
update hook then fires on commit. -/
def Port.assign_ssh (p : Port) (s : Option Nat) (now : Nat) (localIp : String) : Port :=
  Port.before_update { p with ssh := s, is_connected := false } now localIp

/-- `Port.disconnect_ssh`: optionally `used_ssh_list.remove(self.ssh)`
(drop the currently-assigned credential from the history), then
`assign_ssh(None)`. -/
def Port.disconnect_ssh (p : Port) (remove_from_used : Bool) (now : Nat) (localIp : String) : Port :=
  let p1 : Port :=
    if remove_from_used then
      { p with used_ssh_list :=
          match p.ssh with
          | some c => p.used_ssh_list.erase c
          | none => p.used_ssh_list }
    else p
  Port.assign_ssh p1 none now localIp

/-- `Port.reset_status`: `Model.reset_status` (clear the checking flag
and `last_checked`), then clear `external_ip`, the assignment, the
connected flag and the whole used-credential history; the update hook
fires on commit. -/
def Port.reset_status (p : Port) (now : Nat) (localIp : String) : Port :=
  Port.before_update
    { p with
      is_checking := false,
      last_checked := none,
      external_ip := "",
      ssh := none,
      is_connected := false,
      used_ssh_list := [] } now localIp

/-- `SSH.get_ssh_for_port`: select the live credentials, when `unique`
also exclude ids in `port.used_ssh_list`, then `query.random(1)` —
modelled as indexing the remaining list at an arbitrary index `k`
(mod its length); empty query yields `None`. -/
def SSH.get_ssh_for_port (sshs : List SSH) (port : Port) (unique : Bool) (k : Nat) : Option SSH :=
  let query := sshs.filter (fun s => s.is_live)
  let query :=
    if unique then
      query.filter (fun s => decide (s.id ∉ port.used_ssh_list))
    else query
  query.get? (k % query.length)

/-- The connection-state invariant of the spec: `time_connected` is
non-null iff `connected` is true. -/
def connectedTimeInvariant (p : Port) : Prop :=
  p.is_connected = true ↔ p.time_connected ≠ none

-- Basic facts about the hook, shared by several claim proofs.

theorem before_update_invariant (p : Port) (now : Nat) (lip : String) :
    connectedTimeInvariant (p.before_update now lip) := by
  unfold connectedTimeInvariant Port.before_update
  cases h : p.is_connected <;> simp [h]

theorem before_update_ssh (p : Port) (now : Nat) (lip : String) :
    (p.before_update now lip).ssh = p.ssh := rfl

theorem before_update_is_connected (p : Port) (now : Nat) (lip : String) :
    (p.before_update now lip).is_connected = p.is_connected := rfl

theorem before_update_external_ip (p : Port) (now : Nat) (lip : String) :
    (p.before_update now lip).external_ip = p.external_ip := rfl

theorem before_update_used_of_not_connected (p : Port) (now : Nat) (lip : String)
    (h : p.is_connected = false) :
    (p.before_update now lip).used_ssh_list = p.used_ssh_list := by
  unfold Port.before_update
  simp [h]

theorem before_update_time_of_not_connected (p : Port) (now : Nat) (lip : String)
    (h : p.is_connected = false) :
    (p.before_update now lip).time_connected = none := by
  unfold Port.before_update
  simp [h]

-- Concrete entities used by witnesses.

/-- A live credential never used by `portW`. -/
def sshA : SSH :=
  { id := 1, ip := "10.0.0.5", username := "u", password := "p", is_live := true }

/-- A fresh, unassigned port. -/
def portW : Port :=
  { port_number := 1024, auto_connect := true, ssh := none,
    is_connected := false, external_ip := "", time_connected := none,
    used_ssh_list := [], proxy_address := "", is_checking := false,
    last_checked := none, last_modified := 0 }

/-- A port that is connected through credential 1 with a confirmed
external IP and a two-entry used-credential history. -/
def portC : Port :=
  { port_number := 2000, auto_connect := true, ssh := some 1,
    is_connected := true, external_ip := "1.2.3.4", time_connected := some 5,
    used_ssh_list := [1, 2], proxy_address := "", is_checking := false,
    last_checked := none, last_modified := 0 }

/-- C1: `get_ssh_for_port port unique=True` only ever returns a live
credential outside the port's used history, and it returns `None`
exactly when no live credential outside the history exists (with
`unique=False`, exactly when no live credential exists at all) —
for every choice `k` the random draw could make. -/
theorem get_mod_length_eq_none_iff (l : List SSH) (k : Nat) :
    l.get? (k % l.length) = none ↔ l = [] := by
  constructor
  · intro hnone
    by_contra hne
    have hlen : 0 < l.length := List.length_pos.mpr hne
    have hlt : k % l.length < l.length := Nat.mod_lt _ hlen
    rw [List.get?_eq_none] at hnone
    omega
  · intro he
    rw [he]
    rfl

theorem get_ssh_for_port_c1 (sshs : List SSH) (port : Port) (k : Nat) :
    (∀ s, SSH.get_ssh_for_port sshs port true k = some s →
        s.is_live = true ∧ s.id ∉ port.used_ssh_list) ∧
    (SSH.get_ssh_for_port sshs port true k = none ↔
        (sshs.filter (fun s => s.is_live)).filter
          (fun s => decide (s.id ∉ port.used_ssh_list)) = []) ∧
    (SSH.get_ssh_for_port sshs port false k = none ↔
        sshs.filter (fun s => s.is_live) = []) := by
  have hu : ∀ k, SSH.get_ssh_for_port sshs port true k =
      ((sshs.filter (fun s => s.is_live)).filter
        (fun s => decide (s.id ∉ port.used_ssh_list))).get?
        (k % ((sshs.filter (fun s => s.is_live)).filter
          (fun s => decide (s.id ∉ port.used_ssh_list))).length) :=
    fun _ => rfl
  have hnu : ∀ k, SSH.get_ssh_for_port sshs port false k =
      (sshs.filter (fun s => s.is_live)).get?
        (k % (sshs.filter (fun s => s.is_live)).length) :=
    fun _ => rfl
  refine ⟨?_, ?_, ?_⟩
  · intro s hs
    rw [hu] at hs
    have hmem : s ∈ (sshs.filter (fun s => s.is_live)).filter
        (fun s => decide (s.id ∉ port.used_ssh_list)) := List.get?_mem hs
    rw [List.mem_filter] at hmem
    obtain ⟨hmem1, h2⟩ := hmem
    rw [List.mem_filter] at hmem1
    exact ⟨hmem1.2, of_decide_eq_true h2⟩
  · rw [hu]
    exact get_mod_length_eq_none_iff _ k
  · rw [hnu]
    exact get_mod_length_eq_none_iff _ k

/-- Witness for C1 at a concrete registry: the selected credential is
live and outside the port's history. -/
theorem get_ssh_for_port_c1_witness :
    sshA.is_live = true ∧ sshA.id ∉ portW.used_ssh_list :=
  (get_ssh_for_port_c1 [sshA] portW 0).1 sshA (by decide)

/-- C2: after any write that triggers the update hook — in particular
after `assign_ssh`, a connect/disconnect flag write, `disconnect_ssh`
and `reset_status` — `time_connected` is non-null iff the connected
flag is true.  The first conjunct quantifies over every pre-commit
state, so it covers every hook-triggering mutation at once. -/
theorem port_connected_invariant_c2 (p : Port) (s : Option Nat) (b : Bool)
    (now : Nat) (lip : String) :
    connectedTimeInvariant (p.before_update now lip) ∧
    connectedTimeInvariant (p.assign_ssh s now lip) ∧
    connectedTimeInvariant (p.disconnect_ssh b now lip) ∧
    connectedTimeInvariant (p.reset_status now lip) :=
  ⟨before_update_invariant _ _ _, before_update_invariant _ _ _,
   before_update_invariant _ _ _, before_update_invariant _ _ _⟩

/-- C9: `need_reset` is partial on reachable states — right after
`assign_ssh (some c)` the port has a credential but `connected=false`,
the hook has nulled `time_connected`, and `need_reset` evaluates
`None < time_expired`, raising `TypeError` instead of returning a
boolean. -/
theorem need_reset_crash_c9 (p : Port) (c now cutoff : Nat) (lip : String) :
    (p.assign_ssh (some c) now lip).need_reset cutoff = .error PyExc.typeError := by
  have hssh : (p.assign_ssh (some c) now lip).ssh = some c := rfl
  have htime : (p.assign_ssh (some c) now lip).time_connected = none :=
    before_update_time_of_not_connected _ now lip rfl
  unfold Port.need_reset
  rw [hssh, htime]

/-- C6: for a port with an assigned credential and a non-null
`time_connected = t`, `need_reset` returns true exactly when `t` is
strictly older than the cutoff and false when `t` is at or after it;
for a port with no assigned credential it returns false. -/
theorem need_reset_c6 (p q : Port) (c t cutoff : Nat)
    (h : p.ssh = some c) (ht : p.time_connected = some t)
    (hq : q.ssh = none) :
    (p.need_reset cutoff = .ok true ↔ t < cutoff) ∧
    (cutoff ≤ t → p.need_reset cutoff = .ok false) ∧
    q.need_reset cutoff = .ok false := by
  unfold Port.need_reset
  rw [h, ht, hq]
  refine ⟨?_, ?_, rfl⟩
  · simp
  · intro hle
    simp [decide_eq_false (by omega : ¬ t < cutoff)]

/-- Witness for C6: a port connected at instant 5 is stale against
cutoff 7 and fresh against cutoff 3; the fresh port needs no reset. -/
theorem need_reset_c6_witness :
    (portC.need_reset 7 = .ok true ↔ 5 < 7) ∧
    (7 ≤ 5 → portC.need_reset 7 = .ok false) ∧
    portW.need_reset 7 = .ok false :=
  need_reset_c6 portC portW 1 5 7 rfl rfl rfl

/-- C4 counterexample.  The claimed `reset(port, removeFromHistory)`
behaviour matches neither code operation at the concrete port `portC`
(connected, `external_ip="1.2.3.4"`, history `[1, 2]`, assigned
credential 1): `disconnect_ssh remove_from_used=False` leaves the
confirmed external IP in place instead of clearing it,
`disconnect_ssh remove_from_used=True` removes only the currently
assigned credential from the history instead of emptying it, and
`reset_status` (which takes no flag) always empties the history. -/
theorem reset_c4_counterexample :
    (portC.disconnect_ssh false 7 "10.0.0.2").external_ip = "1.2.3.4" ∧
    (portC.disconnect_ssh true 7 "10.0.0.2").used_ssh_list = [2] ∧
    (portC.reset_status 7 "10.0.0.2").used_ssh_list = [] := by
  refine ⟨rfl, ?_, rfl⟩
  decide

/-- C4 amended: `disconnect_ssh` (routine disconnect) clears the
assignment and connection state and preserves the used-credential
history and the recorded external IP — the external IP is not cleared;
with `remove_from_used=True` it removes only the currently assigned
credential from the history.  The full `reset_status` clears connection
state, external IP and assignment, and always empties the history. -/
theorem reset_c4_amended (p : Port) (c now : Nat) (lip : String)
    (h : p.ssh = some c) :
    (p.disconnect_ssh false now lip).is_connected = false ∧
    (p.disconnect_ssh false now lip).time_connected = none ∧
    (p.disconnect_ssh false now lip).ssh = none ∧
    (p.disconnect_ssh false now lip).external_ip = p.external_ip ∧
    (p.disconnect_ssh false now lip).used_ssh_list = p.used_ssh_list ∧
    (p.disconnect_ssh true now lip).used_ssh_list = p.used_ssh_list.erase c ∧
    (p.reset_status now lip).is_connected = false ∧
    (p.reset_status now lip).time_connected = none ∧
    (p.reset_status now lip).ssh = none ∧
    (p.reset_status now lip).external_ip = "" ∧
    (p.reset_status now lip).used_ssh_list = [] := by
  unfold Port.disconnect_ssh Port.reset_status Port.assign_ssh
  refine ⟨rfl, before_update_time_of_not_connected _ _ _ rfl, rfl, rfl,
    before_update_used_of_not_connected _ _ _ rfl, ?_, rfl,
    before_update_time_of_not_connected _ _ _ rfl, rfl, rfl,
    before_update_used_of_not_connected _ _ _ rfl⟩
  rw [if_pos rfl, h]
  exact before_update_used_of_not_connected _ _ _ rfl

/-- Witness for C4's amended statement at the concrete port `portC`. -/
theorem reset_c4_amended_witness :
    (portC.disconnect_ssh false 7 "10.0.0.2").is_connected = false ∧
    (portC.disconnect_ssh false 7 "10.0.0.2").time_connected = none ∧
    (portC.disconnect_ssh false 7 "10.0.0.2").ssh = none ∧
    (portC.disconnect_ssh false 7 "10.0.0.2").external_ip = portC.external_ip ∧
    (portC.disconnect_ssh false 7 "10.0.0.2").used_ssh_list = portC.used_ssh_list ∧
    (portC.disconnect_ssh true 7 "10.0.0.2").used_ssh_list = portC.used_ssh_list.erase 1 ∧
    (portC.reset_status 7 "10.0.0.2").is_connected = false ∧
    (portC.reset_status 7 "10.0.0.2").time_connected = none ∧
    (portC.reset_status 7 "10.0.0.2").ssh = none ∧
    (portC.reset_status 7 "10.0.0.2").external_ip = "" ∧
    (portC.reset_status 7 "10.0.0.2").used_ssh_list = [] :=
  reset_c4_amended portC 1 7 "10.0.0.2" rfl

/-- C5: two successive connected updates with the same assignment
(the port's `before_update` hook firing twice with `is_connected=true`
and `ssh = some c`) leave the used-credential history containing `c`
exactly once — the union into the history is idempotent. -/
theorem mark_connected_twice_c5 (p : Port) (c now1 now2 : Nat) (lip1 lip2 : String)
    (h : p.ssh = some c) (hcount : p.used_ssh_list.count c ≤ 1) :
    ((Port.before_update { p with is_connected := true } now1 lip1).before_update
        now2 lip2).used_ssh_list.count c = 1 := by
  set p1 := Port.before_update { p with is_connected := true } now1 lip1 with hp1
  have hssh1 : p1.ssh = some c := h
  have hconn1 : p1.is_connected = true := rfl
  have hused1 : p1.used_ssh_list =
      if c ∈ p.used_ssh_list then p.used_ssh_list
      else p.used_ssh_list ++ [c] := by
    rw [hp1]
    unfold Port.before_update
    simp [h]
  have hcount1 : p1.used_ssh_list.count c = 1 := by
    rw [hused1]
    by_cases hmem : c ∈ p.used_ssh_list
    · rw [if_pos hmem]
      have := List.count_pos_iff.mpr hmem
      omega
    · rw [if_neg hmem]
      rw [List.count_append, List.count_eq_zero.mpr hmem]
      simp
  have hmem1 : c ∈ p1.used_ssh_list := by
    rw [← List.count_pos_iff, hcount1]
    omega
  have hused2 : (p1.before_update now2 lip2).used_ssh_list = p1.used_ssh_list := by
    unfold Port.before_update
    simp [hconn1, hssh1, hmem1]
  rw [hused2, hcount1]

/-- Witness for C5 at the concrete connected port `portC` (assigned
credential 1, history `[1, 2]`). -/
theorem mark_connected_twice_c5_witness :
    ((Port.before_update { portC with is_connected := true } 7 "a").before_update
        8 "b").used_ssh_list.count 1 = 1 :=
  mark_connected_twice_c5 portC 1 7 8 "a" "b" rfl (by decide)

/-- One completed awaitable as observed by `get_first_success`: it
either produced a value or raised an exception. -/
inductive Outcome (α : Type) where
  | ok (v : α)
  | err (e : PyExc)
deriving DecidableEq, Repr

/-- The `for future in asyncio.as_completed(tasks)` loop of
`utils.get_first_success`, over the outcomes in completion order,
carrying the `exception` variable (initially `None`):
* a successful await returns its result immediately;
* `except Exception` records the exception and continues — but
  `asyncio.CancelledError` derives from `BaseException` on the Python
  version this code requires, so a cancelled await propagates out of
  the loop uncaught;
* after the loop, re-raise the recorded exception, except that a
  recorded `CancelledError` becomes `asyncio.TimeoutError` (with no
  recorded exception, `raise None` raises a `TypeError`). -/
def get_first_success_loop (outs : List (Outcome α)) (exception : Option PyExc) :
    Except PyExc α :=
  match outs with
  | [] =>
      match exception with
      | some PyExc.cancelledError => .error PyExc.timeoutError
      | some e => .error e
      | none => .error PyExc.typeError
  | Outcome.ok v :: _ => .ok v
  | Outcome.err PyExc.cancelledError :: _ => .error PyExc.cancelledError
  | Outcome.err e :: rest => get_first_success_loop rest (some e)

/-- `utils.get_first_success` on a list of awaitable outcomes listed in
completion order. -/
def get_first_success (outs : List (Outcome α)) : Except PyExc α :=
  get_first_success_loop outs none

/-- C3, evaluated at the spec's scenarios: the first successful
outcome is returned over `[fail, fail, succeed "X"]`; over
`[fail e1, fail e2]` the last failure `e2` is raised; but over a single
cancelled awaitable the raw `CancelledError` propagates — `except
Exception` does not catch `CancelledError` on Python >= 3.8 (which the
walrus operator in `models.py` requires), so the function's final
`CancelledError` → `TimeoutError` conversion is unreachable and no
timeout signal is raised, contradicting the claim. -/
theorem get_first_success_c3 :
    get_first_success [Outcome.err (PyExc.other "e1"),
      Outcome.err (PyExc.other "e2"), Outcome.ok "X"] = .ok "X" ∧
    get_first_success ([Outcome.err (PyExc.other "e1"),
      Outcome.err (PyExc.other "e2")] : List (Outcome String)) =
      .error (PyExc.other "e2") ∧
    get_first_success ([Outcome.err PyExc.cancelledError] :
      List (Outcome String)) = .error PyExc.cancelledError :=
  ⟨rfl, rfl, rfl⟩

/-- The environment of one recursion step of `utils.get_proxy_ip`:
whether building the `ProxyConnector` (and opening the session)
raised, and the outcome of the GET against each of the two IP-echo
endpoints (`api.ipify.org`, then `ip.seeip.org` as fallback). -/
structure ProbeEnv where
  connector : Except PyExc Unit
  ep1 : Except PyExc String
  ep2 : Except PyExc String
deriving Repr

/-- Whether an `except Exception` clause catches this exception: true
for every modelled exception except `asyncio.CancelledError`, which
derives from `BaseException` on the Python version this code requires
(>= 3.8, forced by the walrus operator in `models.py`). -/
def PyExc.isException : PyExc → Bool
  | PyExc.cancelledError => false
  | _ => true

/-- The body of `get_proxy_ip`'s outer `try`: build the connector and
GET the first endpoint; the inner `except Exception` falls back to the
second endpoint only for a genuine `Exception` — a `CancelledError`
from the first GET propagates.  A failure of the second endpoint (or
of the connector) escapes to the outer `except`. -/
def try_endpoints (a : ProbeEnv) : Except PyExc String :=
  match a.connector with
  | .error e => .error e
  | .ok _ =>
      match a.ep1 with
      | .ok s => .ok s
      | .error e => if e.isException then a.ep2 else .error e

/-- True when the whole attempt raised an exception that the outer
`except Exception` of `get_proxy_ip` catches (so a cancelled attempt
does not count as a caught failure). -/
def attempt_failed (a : ProbeEnv) : Bool :=
  match try_endpoints a with
  | .ok _ => false
  | .error e => e.isException

/-- `utils.get_proxy_ip`: try the endpoints; `except Exception` then
returns the empty string when `tries` is falsy (0) and otherwise
recurses with `tries - 1` — but only for failures that are `Exception`
instances; a `CancelledError` escapes the clause and propagates to the
caller, so the codomain is `Except PyExc String`.  `env call` is the
probe environment of the current call and recursion moves to
`env (call + 1)`. -/
def get_proxy_ip (env : Nat → ProbeEnv) (call tries : Nat) : Except PyExc String :=
  match try_endpoints (env call), tries with
  | .ok s, _ => .ok s
  | .error e, 0 => if e.isException then .ok "" else .error e
  | .error e, t + 1 =>
      if e.isException then get_proxy_ip env (call + 1) t else .error e

theorem get_proxy_ip_of_ok (env : Nat → ProbeEnv) (call tries : Nat) (s : String)
    (h : try_endpoints (env call) = .ok s) :
    get_proxy_ip env call tries = .ok s := by
  unfold get_proxy_ip
  rw [h]

theorem get_proxy_ip_of_err_zero (env : Nat → ProbeEnv) (call : Nat) (e : PyExc)
    (h : try_endpoints (env call) = .error e) :
    get_proxy_ip env call 0 = if e.isException then .ok "" else .error e := by
  unfold get_proxy_ip
  rw [h]

theorem get_proxy_ip_of_err_succ (env : Nat → ProbeEnv) (call t : Nat) (e : PyExc)
    (h : try_endpoints (env call) = .error e) :
    get_proxy_ip env call (t + 1) =
      if e.isException then get_proxy_ip env (call + 1) t else .error e := by
  conv_lhs => unfold get_proxy_ip
  rw [h]

/-- C7 counterexample: `get_proxy_ip` does not catch every probe
outcome.  With the first endpoint's GET cancelled
(`asyncio.CancelledError`), the second endpoint healthy and a retry
budget left, the code neither falls back to the second endpoint nor
returns the empty string: the raw cancellation propagates, because on
Python >= 3.8 both `except Exception` clauses miss `CancelledError`. -/
theorem get_proxy_ip_c7_counterexample :
    get_proxy_ip (fun _ => ⟨Except.ok (), Except.error PyExc.cancelledError,
      Except.ok "5.6.7.8"⟩) 0 1 = .error PyExc.cancelledError := rfl

/-- C7 amended: for probe failures that are `Exception` instances (the
aiohttp/connector errors the code expects; not a cancellation),
`get_proxy_ip` never raises — when every attempt among the `tries + 1`
bounded retries fails this way it returns the empty string as a
connectivity outcome, within one attempt the second endpoint's answer
is used when the first endpoint raises an `Exception`, and in general
the result is either the empty string or a string echoed by one of the
attempts' endpoints. -/
theorem get_proxy_ip_c7_amended (env : Nat → ProbeEnv) (call tries : Nat) :
    ((∀ i, i ≤ tries → attempt_failed (env (call + i)) = true) →
        get_proxy_ip env call tries = .ok "") ∧
    (∀ e s, (env call).connector = .ok () → (env call).ep1 = .error e →
        e.isException = true → (env call).ep2 = .ok s →
        get_proxy_ip env call tries = .ok s) ∧
    ((∀ i e, i ≤ tries → try_endpoints (env (call + i)) = .error e →
        e.isException = true) →
      (get_proxy_ip env call tries = .ok "" ∨
        ∃ i s, i ≤ tries ∧ try_endpoints (env (call + i)) = .ok s ∧
          get_proxy_ip env call tries = .ok s)) := by
  have hfallback : ∀ call tries e s, (env call).connector = .ok () →
      (env call).ep1 = .error e → e.isException = true →
      (env call).ep2 = .ok s → get_proxy_ip env call tries = .ok s := by
    intro call tries e s hc h1 hexc h2
    have htry : try_endpoints (env call) = .ok s := by
      unfold try_endpoints
      rw [hc, h1]
      show (if e.isException = true then (env call).ep2 else Except.error e) =
        Except.ok s
      rw [if_pos hexc, h2]
    exact get_proxy_ip_of_ok env call tries s htry
  induction tries generalizing call with
  | zero =>
      refine ⟨?_, fun e s => hfallback call 0 e s, ?_⟩
      · intro hall
        have h0 := hall 0 (Nat.le_refl 0)
        unfold attempt_failed at h0
        rw [Nat.add_zero] at h0
        cases htry : try_endpoints (env call) with
        | ok s => rw [htry] at h0; simp at h0
        | error e =>
            rw [htry] at h0
            rw [get_proxy_ip_of_err_zero env call e htry, if_pos h0]
      · intro hexc
        cases htry : try_endpoints (env call) with
        | ok s =>
            refine Or.inr ⟨0, s, Nat.le_refl 0, ?_, ?_⟩
            · rw [Nat.add_zero, htry]
            · exact get_proxy_ip_of_ok env call 0 s htry
        | error e =>
            have he : e.isException = true :=
              hexc 0 e (Nat.le_refl 0) (by rw [Nat.add_zero, htry])
            rw [get_proxy_ip_of_err_zero env call e htry, if_pos he]
            exact Or.inl rfl
  | succ t ih =>
      refine ⟨?_, fun e s => hfallback call (t + 1) e s, ?_⟩
      · intro hall
        have h0 := hall 0 (Nat.zero_le _)
        unfold attempt_failed at h0
        rw [Nat.add_zero] at h0
        cases htry : try_endpoints (env call) with
        | ok s => rw [htry] at h0; simp at h0
        | error e =>
            rw [htry] at h0
            rw [get_proxy_ip_of_err_succ env call t e htry, if_pos h0]
            exact (ih (call + 1)).1 (fun i hi => by
              have hstep := hall (i + 1) (by omega)
              have harith : call + (i + 1) = call + 1 + i := by omega
              rw [harith] at hstep
              exact hstep)
      · intro hexc
        cases htry : try_endpoints (env call) with
        | ok s =>
            refine Or.inr ⟨0, s, Nat.zero_le _, ?_, ?_⟩
            · rw [Nat.add_zero, htry]
            · exact get_proxy_ip_of_ok env call (t + 1) s htry
        | error e =>
            have he : e.isException = true :=
              hexc 0 e (Nat.zero_le _) (by rw [Nat.add_zero, htry])
            rw [get_proxy_ip_of_err_succ env call t e htry, if_pos he]
            have hshift : ∀ i e, i ≤ t →
                try_endpoints (env (call + 1 + i)) = .error e →
                e.isException = true := by
              intro i e hi hstep
              have harith : call + 1 + i = call + (i + 1) := by omega
              rw [harith] at hstep
              exact hexc (i + 1) e (by omega) hstep
            rcases (ih (call + 1)).2.2 hshift with hempty | ⟨i, s, hi, hok, hres⟩
            · exact Or.inl hempty
            · refine Or.inr ⟨i + 1, s, by omega, ?_, hres⟩
              have harith : call + (i + 1) = call + 1 + i := by omega
              rw [harith]
              exact hok

/-- Witness for C7's amended statement: with both endpoints failing
with ordinary exceptions on every attempt and one retry allowed, the
probe reports the empty string instead of raising; with only the first
endpoint failing that way, the second endpoint's echo is returned. -/
theorem get_proxy_ip_c7_amended_witness :
    get_proxy_ip (fun _ => ⟨Except.ok (), Except.error (PyExc.other "down"),
      Except.error (PyExc.other "down")⟩) 0 1 = .ok "" ∧
    get_proxy_ip (fun _ => ⟨Except.ok (), Except.error (PyExc.other "down"),
      Except.ok "5.6.7.8"⟩) 0 1 = .ok "5.6.7.8" :=
  ⟨(get_proxy_ip_c7_amended _ 0 1).1 (fun _ _ => rfl),
   (get_proxy_ip_c7_amended _ 0 1).2.1 (PyExc.other "down") "5.6.7.8"
     rfl rfl rfl rfl⟩

/-!
`utils.parse_ssh_file` applies
`re.search(r'((?:[0-9]{1,3}\.){3}[0-9]{1,3})[;,|]([^;,|]*)[^delim]...', line)`
(delimiter class `[;,|]` between the three captures) to every line of
the input.  At any fixed start position this pattern matches
deterministically, so the backtracking engine is embedded as a plain
function:
* `[0-9]{1,3}` followed by `\.` (or by `[;,|]`): a shorter-than-maximal
  digit take is followed by another digit, which is neither `.` nor a
  delimiter, so the group must consume the entire leading digit run,
  whose length must be between 1 and 3, and the required character must
  follow it;
* `([^;,|]*)` followed by `[;,|]`: the greedy class run stops exactly at
  the first delimiter (delimiters are excluded from the class, so no
  shorter run can satisfy the follow-up either) and fails if the line
  ends first;
* the final `([^;,|]*)` simply takes the maximal delimiter-free run.
`re.search` tries each start position from the left, which is the
recursion of `re_search`.
-/

/-- The delimiter class `[;,|]` of the credential-line pattern. -/
def isDelim (c : Char) : Bool :=
  c = ';' || c = ',' || c = '|'

/-- Length of the leading `[0-9]` run. -/
def digitRunLen : List Char → Nat
  | [] => 0
  | c :: cs => if c.isDigit then digitRunLen cs + 1 else 0

/-- Match `[0-9]{1,3}\.` at the start of `cs`, returning the digits and
the remainder after the dot. -/
def matchDigitsDot (cs : List Char) : Option (List Char × List Char) :=
  if 1 ≤ digitRunLen cs ∧ digitRunLen cs ≤ 3 then
    match cs.drop (digitRunLen cs) with
    | '.' :: rest => some (cs.take (digitRunLen cs), rest)
    | _ => none
  else none

/-- Match `[0-9]{1,3}[;,|]` at the start of `cs`, returning the digits
and the remainder after the delimiter. -/
def matchDigitsDelim (cs : List Char) : Option (List Char × List Char) :=
  if 1 ≤ digitRunLen cs ∧ digitRunLen cs ≤ 3 then
    match cs.drop (digitRunLen cs) with
    | d :: rest => if isDelim d then some (cs.take (digitRunLen cs), rest) else none
    | [] => none
  else none

/-- Match the whole pattern anchored at the start of `cs`: the dotted
quad (three `[0-9]{1,3}\.` groups and a final `[0-9]{1,3}`), a
delimiter, the username run (which must be followed by a delimiter),
and the password run; anything after the password run is ignored. -/
def matchAt (cs : List Char) : Option (String × String × String) :=
  match matchDigitsDot cs with
  | none => none
  | some (d1, r1) =>
    match matchDigitsDot r1 with
    | none => none
    | some (d2, r2) =>
      match matchDigitsDot r2 with
      | none => none
      | some (d3, r3) =>
        match matchDigitsDelim r3 with
        | none => none
        | some (d4, r4) =>
          match r4.span (fun c => !isDelim c) with
          | (_, []) => none
          | (u, _ :: r6) =>
            some (String.mk (d1 ++ '.' :: (d2 ++ '.' :: (d3 ++ '.' :: d4))),
                  String.mk u,
                  String.mk (r6.takeWhile (fun c => !isDelim c)))

/-- `re.search`: try the anchored match at every position from the
left, returning the first (leftmost) match. -/
def re_search : List Char → Option (String × String × String)
  | [] => none
  | c :: t =>
    match matchAt (c :: t) with
    | some r => some r
    | none => re_search t

/-- `str.splitlines`: split on line boundaries (`\n`, `\r\n`, `\r`;
Python's rarer terminators such as `\v`, `\f` and the Unicode line
separators are not modelled), without a trailing empty line for a
terminator at the end of the string. -/
def splitlinesAux : List Char → List Char → List (List Char)
  | [], [] => []
  | [], acc => [acc.reverse]
  | '\r' :: '\n' :: rest, acc => acc.reverse :: splitlinesAux rest []
  | '\r' :: rest, acc => acc.reverse :: splitlinesAux rest []
  | '\n' :: rest, acc => acc.reverse :: splitlinesAux rest []
  | c :: rest, acc => splitlinesAux rest (c :: acc)

def splitlines (s : String) : List String :=
  (splitlinesAux s.data []).map String.mk

/-- One parsed credential record `{ip, username, password}`. -/
structure SSHRecord where
  ip : String
  username : String
  password : String
deriving DecidableEq, Repr

/-- `utils.parse_ssh_file`: run the regex search over each line and
collect a record per matching line, silently skipping the rest. -/
def parse_ssh_file (file_content : String) : List SSHRecord :=
  (splitlines file_content).filterMap (fun line =>
    (re_search line.data).map (fun r => ⟨r.1, r.2.1, r.2.2⟩))

-- The IP part of the pattern requires a literal dot, so a line with no
-- dot can never match at any position.

theorem matchDigitsDot_dot_mem {cs a b : List Char}
    (h : matchDigitsDot cs = some (a, b)) : '.' ∈ cs := by
  unfold matchDigitsDot at h
  split at h
  · split at h
    · rename_i rest heq
      exact List.drop_subset _ _ (heq ▸ List.mem_cons_self _ _)
    · exact absurd h (by simp)
  · exact absurd h (by simp)

theorem matchAt_dot_mem {cs : List Char} {r : String × String × String}
    (h : matchAt cs = some r) : '.' ∈ cs := by
  unfold matchAt at h
  split at h
  · exact absurd h (by simp)
  · rename_i d1 r1 heq
    exact matchDigitsDot_dot_mem heq

theorem re_search_eq_none_of_no_dot :
    ∀ cs : List Char, '.' ∉ cs → re_search cs = none := by
  intro cs
  induction cs with
  | nil => intro _; rfl
  | cons c t ih =>
      intro hno
      unfold re_search
      cases hm : matchAt (c :: t) with
      | some r => exact absurd (matchAt_dot_mem hm) hno
      | none =>
          simp only []
          exact ih (fun hmem => hno (List.mem_cons_of_mem _ hmem))

/-- C8: the line `"10.0.0.5;user1;pass1"` parses to exactly the record
with ip "10.0.0.5", username "user1" and password "pass1"; and a line
containing no IP pattern — in particular any line without even a dot —
yields no record and no error (the matcher returns `none` and
`parse_ssh_file` skips the line), as on a concrete patternless line. -/
theorem parse_ssh_file_c8 :
    parse_ssh_file "10.0.0.5;user1;pass1" =
      [{ ip := "10.0.0.5", username := "user1", password := "pass1" }] ∧
    (∀ cs : List Char, '.' ∉ cs → re_search cs = none) ∧
    parse_ssh_file "this line has no ip pattern" = [] := by
  refine ⟨by decide, re_search_eq_none_of_no_dot, by decide⟩

/-- Witness for C8: the no-IP-pattern clause applied at a concrete
dotless line. -/
theorem parse_ssh_file_c8_witness :
    re_search ['n', 'o', ' ', 'i', 'p'] = none :=
  parse_ssh_file_c8.2.1 ['n', 'o', ' ', 'i', 'p'] (by decide)

/-- C10: the digit-group shape is all that is validated — octet values
above 255 pass through — and the pattern may match starting anywhere in
the line, ignoring text before the IP and after the password field. -/
theorem parse_ssh_file_c10 :
    parse_ssh_file "999.999.999.999;u;p" =
      [{ ip := "999.999.999.999", username := "u", password := "p" }] ∧
    parse_ssh_file "xx==1.2.3.4;user;pass;trailing junk" =
      [{ ip := "1.2.3.4", username := "user", password := "pass" }] := by
  refine ⟨by decide, by decide⟩
